import Mathlib

/-!
Verification of the pump-control firmware (PumpController.ino) and the web
front-end (script.js) of the P_PumpControl_ repository.

The firmware is shallowly embedded: Arduino `String` values become `List Char`,
the serial output becomes a list of structured events, the GPIO pins become a
map from pin number to level (`true` = HIGH) together with a trace of all
`digitalWrite` calls, and the monotonic clocks `millis()` / `micros()` become
explicit `Nat` parameters passed to the operations that sample them.  The
firmware's `float` arithmetic is modelled over `Rat`; `unsigned long`
arithmetic is modelled over `Nat` with explicit wrap-around modulo 2^32.
-/

/-- Set of whitespace characters recognised by `isspace`, used by
Arduino `String.trim` and by `atof`/`atol`. -/
def isSpaceB (c : Char) : Bool :=
  c == ' ' || c == '\t' || c == '\n' || c == '\r' || c == '\x0b' || c == '\x0c'

/-- Arduino `String.trim`: removes leading and trailing whitespace. -/
def trimChars (cs : List Char) : List Char :=
  ((cs.dropWhile isSpaceB).reverse.dropWhile isSpaceB).reverse

/-- `startsWith pat l`: Arduino `String.startsWith`. -/
def beginsWith : List Char → List Char → Bool
  | [], _ => true
  | _ :: _, [] => false
  | p :: ps, c :: cs => p == c && beginsWith ps cs

/-- Arduino `String.indexOf(',')`: index of the first comma, if any
(the C++ call returns -1 when there is none, modelled as `none`). -/
def indexOfComma : List Char → Option Nat
  | [] => none
  | c :: rest => if c = ',' then some 0 else (indexOfComma rest).map (· + 1)

/-- Arduino `String.charAt i`: the character at index `i`, or the NUL
character when out of range (as `String::charAt` behaves). -/
def charAt (l : List Char) (n : Nat) : Char :=
  l.getD n (Char.ofNat 0)

/-- Reads a maximal run of decimal digits: accumulated value, number of
digits read, remaining characters. -/
def readDigits : List Char → Nat → Nat → Nat × Nat × List Char
  | c :: rest, acc, k =>
    if c.isDigit then readDigits rest (acc * 10 + (c.toNat - 48)) (k + 1)
    else (acc, k, c :: rest)
  | [], acc, k => (acc, k, [])

/-- Power of ten with an integer exponent, over `Rat` (used for the exponent
part of `atof`). -/
def pow10 (z : Int) : Rat :=
  if 0 ≤ z then ((10 : Rat) ^ z.toNat) else 1 / ((10 : Rat) ^ (-z).toNat)

/-- The rational number with value `n`, built directly from numerator and
denominator (equal to the canonical cast of `n`, see `ratOfNat_eq_cast`). -/
def ratOfNat (n : Nat) : Rat :=
  mkRat (Int.ofNat n) 1

/-- Arduino `String.toFloat` (C `atof`): skips leading whitespace, reads an
optional sign, integer digits, an optional fraction and an optional exponent;
returns 0 when no digits are present.  Exact rational arithmetic stands in
for the C `float`. -/
def atof (cs : List Char) : Rat :=
  let cs := cs.dropWhile isSpaceB
  let (sign, cs) :=
    match cs with
    | '-' :: r => ((-1 : Rat), r)
    | '+' :: r => ((1 : Rat), r)
    | r => ((1 : Rat), r)
  let (ip, k1, cs) := readDigits cs 0 0
  let (fp, k2, cs) :=
    match cs with
    | '.' :: r => readDigits r 0 0
    | r => ((0 : Nat), (0 : Nat), r)
  if k1 = 0 ∧ k2 = 0 then 0
  else
    let mant : Rat := sign * (ratOfNat ip + ratOfNat fp / ((10 : Rat) ^ k2))
    match cs with
    | 'e' :: r =>
      let (esign, r2) :=
        match r with
        | '-' :: r3 => ((-1 : Int), r3)
        | '+' :: r3 => ((1 : Int), r3)
        | r3 => ((1 : Int), r3)
      let (ev, ke, _) := readDigits r2 0 0
      if ke = 0 then mant else mant * pow10 (esign * (ev : Int))
    | 'E' :: r =>
      let (esign, r2) :=
        match r with
        | '-' :: r3 => ((-1 : Int), r3)
        | '+' :: r3 => ((1 : Int), r3)
        | r3 => ((1 : Int), r3)
      let (ev, ke, _) := readDigits r2 0 0
      if ke = 0 then mant else mant * pow10 (esign * (ev : Int))
    | _ => mant

/-- Arduino `String.toInt` (C `atol`): skips leading whitespace, reads an
optional sign and decimal digits; returns 0 when no digits are present. -/
def atol (cs : List Char) : Int :=
  let cs := cs.dropWhile isSpaceB
  let (sign, cs) :=
    match cs with
    | '-' :: r => ((-1 : Int), r)
    | '+' :: r => ((1 : Int), r)
    | r => ((1 : Int), r)
  let (v, _, _) := readDigits cs 0 0
  sign * (v : Int)

/-- Splits a character list at every comma; a boundary is closed at each
comma and at the end of the input, exactly as the scanning loop in
`handleStartCommand` does (so the empty input yields one empty field). -/
def splitFields : List Char → List (List Char)
  | [] => [[]]
  | c :: rest =>
    if c = ',' then [] :: splitFields rest
    else
      match splitFields rest with
      | f :: fs => (c :: f) :: fs
      | [] => [[c]]

/-- 2^32, the modulus of the Arduino `unsigned long` type. -/
def U32 : Nat := 4294967296

/-- `unsigned long` subtraction `a - b` with wrap-around modulo 2^32. -/
def usub32 (a b : Nat) : Nat :=
  (a + U32 - b % U32) % U32

/-- Conversion of a (possibly negative) integer to `unsigned long`,
i.e. reduction modulo 2^32 (the cast `(unsigned long)(duration * 1000)`). -/
def toU32 (z : Int) : Nat :=
  (z % (U32 : Int)).toNat

/-- One pump record of the firmware's `struct Pump`. -/
structure Pump where
  stepPin : Nat
  dirPin : Nat
  enablePin : Nat
  isRunning : Bool
  rpm : Rat
  duration : Int
  continuous : Bool
  startTime : Nat
  intervalMicros : Rat
  lastStepTime : Nat
  name : Char
deriving DecidableEq, Repr

/-- A serial output event.  Response and error lines are kept verbatim;
the informational "Started pump ..."/"Stopped pump ..." prints are kept as
structured events (their decimal formatting plays no role in any claim). -/
inductive OutEvent where
  | line : List Char → OutEvent
  | started : Char → Rat → Bool → OutEvent
  | stopped : Char → OutEvent
deriving DecidableEq, Repr

/-- Whole firmware state: the four pump records, the GPIO pin levels
(`true` = HIGH), the serial output so far and the trace of all
`digitalWrite` calls. -/
structure Sys where
  pumps : Fin 4 → Pump
  pins : Nat → Bool
  out : List OutEvent
  gpioTrace : List (Nat × Bool)

/-- `digitalWrite pin v`: set the pin level and record the write. -/
def digitalWrite (pin : Nat) (v : Bool) (s : Sys) : Sys :=
  { s with
    pins := fun p => if p = pin then v else s.pins p
    gpioTrace := s.gpioTrace ++ [(pin, v)] }

/-- `Serial.println` of a complete line. -/
def emitLine (msg : List Char) (s : Sys) : Sys :=
  { s with out := s.out ++ [OutEvent.line msg] }

/-- Append a structured serial event. -/
def emitEvent (e : OutEvent) (s : Sys) : Sys :=
  { s with out := s.out ++ [e] }

def msgStartFormat : List Char := "ERROR: Invalid START command format".data
def msgInvalidPumpId : List Char := "ERROR: Invalid pump identifier".data
def msgRpmRange : List Char := "ERROR: RPM must be between -3000 and 3000".data
def msgDuration : List Char := "ERROR: Duration must be positive".data
def msgStopInvalid : List Char := "ERROR: Invalid STOP command".data
def msgInvalidPump : List Char := "ERROR: Invalid pump".data
def msgUnknown : List Char := "ERROR: Unknown command".data
def msgOk : List Char := "OK".data
def msgReady : List Char := "Arduino Pump Controller Ready (Direct Pulse Mode)".data

/-- `findPumpIndex`: first pump whose `name` matches, scanning indices
0..3; the C return value -1 is modelled as `none`. -/
def findPumpIndex (c : Char) (s : Sys) : Option (Fin 4) :=
  if (s.pumps 0).name = c then some 0
  else if (s.pumps 1).name = c then some 1
  else if (s.pumps 2).name = c then some 2
  else if (s.pumps 3).name = c then some 3
  else none

/-- `stopPump`: if the pump is running, clear `isRunning`, drive its enable
pin HIGH (disabling the driver) and print the "Stopped pump" notice;
otherwise do nothing. -/
def stopPump (i : Fin 4) (s : Sys) : Sys :=
  let p := s.pumps i
  if p.isRunning then
    let s1 : Sys := { s with pumps := Function.update s.pumps i { p with isRunning := false } }
    let s2 := digitalWrite p.enablePin true s1
    emitEvent (OutEvent.stopped p.name) s2
  else s

/-- The interval computation of `startPump` (lines
`float stepsPerSec = (rpm / 60.0) * EFFECTIVE_STEPS_PER_REV;`
`pump->intervalMicros = (1.0 / stepsPerSec) * 1e6;`), with
`EFFECTIVE_STEPS_PER_REV = 200.0 * 16`. -/
def stepIntervalMicros (rpm : Rat) : Rat :=
  let stepsPerSec : Rat := (rpm / 60) * (200 * 16)
  (1 / stepsPerSec) * 1000000

/-- `startPump`: stop the pump first, set the direction pin from the sign of
`rpm`, compute the step interval from `abs rpm`, overwrite the stored
configuration, mark the pump running, record the start timestamps, drive the
enable pin LOW and print the "Started pump" notice.  `nowMs`/`nowUs` are the
values read from `millis()`/`micros()`. -/
def startPump (i : Fin 4) (rpm : Rat) (duration : Int) (continuous : Bool)
    (nowMs nowUs : Nat) (s : Sys) : Sys :=
  let s0 := stopPump i s
  let p := s0.pumps i
  let s1 := digitalWrite p.dirPin (if 0 < rpm then true else false) s0
  let r := |rpm|
  let p' : Pump :=
    { p with
      rpm := r, duration := duration, continuous := continuous,
      isRunning := true, startTime := nowMs,
      intervalMicros := stepIntervalMicros r, lastStepTime := nowUs }
  let s2 : Sys := { s1 with pumps := Function.update s1.pumps i p' }
  let s3 := digitalWrite p.enablePin false s2
  emitEvent (OutEvent.started p.name r (s3.pins p.dirPin)) s3

/-- The part of `handleStartCommand` after the field-count check: extract
the pump character, rpm, duration and continuous fields from the (at most
five) collected parts, validate them in the source's order, and on success
call `startPump` and acknowledge with OK. -/
def startDispatch (parts : List (List Char)) (nowMs nowUs : Nat) (s : Sys) : Sys :=
  let pumpChar := charAt (parts.getD 1 []) 0
  let rpm := atof (parts.getD 2 [])
  let duration := atol (parts.getD 3 [])
  let continuous := atol (parts.getD 4 [])
  match findPumpIndex pumpChar s with
  | none => emitLine msgInvalidPumpId s
  | some i =>
    if rpm = 0 ∨ 3000 < |rpm| then emitLine msgRpmRange s
    else if continuous = 0 ∧ duration ≤ 0 then emitLine msgDuration s
    else emitLine msgOk (startPump i rpm duration (continuous == 1) nowMs nowUs s)

/-- `handleStartCommand`: split the command at commas, storing at most the
first five parts (`partIndex` saturates at 5, i.e. it ends at
`min fields.length 5`); reject when fewer than five fields were collected,
otherwise dispatch on the first five fields. -/
def handleStartCommand (cmd : List Char) (nowMs nowUs : Nat) (s : Sys) : Sys :=
  let fields := splitFields cmd
  if min fields.length 5 ≠ 5 then emitLine msgStartFormat s
  else startDispatch (fields.take 5) nowMs nowUs s

/-- `handleStopCommand`: require a comma that is not the last character,
take the single character after it as the pump id, require it to be a known
pump, and stop that pump. -/
def handleStopCommand (cmd : List Char) (s : Sys) : Sys :=
  match indexOfComma cmd with
  | none => emitLine msgStopInvalid s
  | some idx =>
    if idx = cmd.length - 1 then emitLine msgStopInvalid s
    else
      match findPumpIndex (charAt cmd (idx + 1)) s with
      | none => emitLine msgInvalidPump s
      | some i => emitLine msgOk (stopPump i s)

/-- `handleEmergencyStop`: stop every pump in index order, then acknowledge. -/
def handleEmergencyStop (s : Sys) : Sys :=
  emitLine msgOk (stopPump 3 (stopPump 2 (stopPump 1 (stopPump 0 s))))

/-- The `1`/`0` digit printed for one pump by `handleStatusRequest`. -/
def runBit (p : Pump) : List Char :=
  if p.isRunning then "1".data else "0".data

/-- The status line assembled by `handleStatusRequest`. -/
def statusString (s : Sys) : List Char :=
  "\x7b\"X\":".data ++ runBit (s.pumps 0) ++
  ",\"Y\":".data ++ runBit (s.pumps 1) ++
  ",\"Z\":".data ++ runBit (s.pumps 2) ++
  ",\"A\":".data ++ runBit (s.pumps 3) ++ "\x7d".data

/-- `handleStatusRequest`: print the per-pump running map as one line. -/
def handleStatusRequest (s : Sys) : Sys :=
  emitLine (statusString s) s

/-- `processCommand`: trim the accumulated line and dispatch on its
keyword, exactly as the source's `startsWith`/equality chain does. -/
def processCommand (input : List Char) (nowMs nowUs : Nat) (s : Sys) : Sys :=
  let command := trimChars input
  if beginsWith "START".data command then handleStartCommand command nowMs nowUs s
  else if beginsWith "STOP".data command then handleStopCommand command s
  else if command = "EMERGENCY".data then handleEmergencyStop s
  else if command = "STATUS".data then handleStatusRequest s
  else emitLine msgUnknown s

/-- The per-pump body of `updatePumps`: skip a pump that is not running;
auto-stop a non-continuous pump whose duration has elapsed (unsigned
millisecond arithmetic); otherwise emit one step pulse when the unsigned
microsecond elapsed time has reached the stored interval, updating
`lastStepTime` to the current `micros()` reading. -/
def updateOnePump (nowMs nowUs : Nat) (s : Sys) (i : Fin 4) : Sys :=
  let p := s.pumps i
  if p.isRunning = false then s
  else if p.continuous = false ∧ toU32 (p.duration * 1000) ≤ usub32 nowMs p.startTime then
    stopPump i s
  else if p.intervalMicros ≤ ratOfNat (usub32 nowUs p.lastStepTime) then
    let s1 := digitalWrite p.stepPin true s
    let s2 := digitalWrite p.stepPin false s1
    { s2 with pumps := Function.update s2.pumps i { p with lastStepTime := nowUs } }
  else s

/-- `updatePumps`: one scheduler pass over the four pumps in index order,
with the `millis()`/`micros()` readings sampled once at the top. -/
def updatePumps (nowMs nowUs : Nat) (s : Sys) : Sys :=
  List.foldl (updateOnePump nowMs nowUs) s ([0, 1, 2, 3] : List (Fin 4))

/-- One pump record as initialised in the global `pumps` array. -/
def mkPump (stepPin dirPin enablePin : Nat) (nm : Char) : Pump :=
  { stepPin := stepPin, dirPin := dirPin, enablePin := enablePin,
    isRunning := false, rpm := 0, duration := 0, continuous := false,
    startTime := 0, intervalMicros := 0, lastStepTime := 0, name := nm }

/-- The four statically configured pumps: X, Y, Z, A, all sharing enable
pin 8. -/
def initialPumps : Fin 4 → Pump := fun i =>
  if i.val = 0 then mkPump 2 5 8 'X'
  else if i.val = 1 then mkPump 3 6 8 'Y'
  else if i.val = 2 then mkPump 4 7 8 'Z'
  else mkPump 12 13 8 'A'

/-- The pin writes done for one pump in `setup()`: enable HIGH, direction
LOW, step LOW. -/
def setupPins (s : Sys) (i : Fin 4) : Sys :=
  let p := s.pumps i
  digitalWrite p.stepPin false (digitalWrite p.dirPin false (digitalWrite p.enablePin true s))

/-- The firmware state right after `setup()`: pumps initialised idle, the
per-pump pin writes performed in order, and the ready banner printed. -/
def setupState : Sys :=
  emitLine msgReady
    (List.foldl setupPins
      { pumps := initialPumps, pins := fun _ => false, out := [], gpioTrace := [] }
      ([0, 1, 2, 3] : List (Fin 4)))

/-- A reachable state used by several concrete instantiations: the firmware
right after processing `START,X,50,10,0` with `millis() = 100` and
`micros() = 200`. -/
def demoAfterStartX : Sys :=
  processCommand "START,X,50,10,0".data 100 200 setupState

/- ===== Web front-end (script.js) ===== -/

/-- Notification kinds passed to `showNotification` in script.js. -/
inductive NotifKind where
  | success
  | error
  | warning
  | info
deriving DecidableEq, Repr

/-- The JSON body of a `start_pump` POST request issued by
`PumpController.startPump`. -/
structure StartRequest where
  pump : List Char
  rpm : Rat
  time : Int
  continuous : Int
deriving DecidableEq, Repr

/-- One entry of `this.pumpStates` in script.js. -/
structure FrontendPumpState where
  running : Bool
  rpm : Rat
  time : Int
  continuous : Bool
deriving DecidableEq, Repr

/-- JavaScript `parseFloat(x) || 0` where the parse result is modelled as
`Option Rat` with `none` for NaN: NaN and 0 are falsy, so both become 0. -/
def jsOrZero (x : Option Rat) : Option Rat :=
  match x with
  | none => some 0
  | some v => if v = 0 then some 0 else some v

/-- JavaScript `parseInt(x) || 0` with `none` for NaN. -/
def jsIntOrZero (x : Option Int) : Int :=
  match x with
  | none => 0
  | some v => v

/-- `PumpController.startPump` from script.js: read the RPM, time and
continuous inputs, refuse with an error notification when the RPM input is
0 or NaN, otherwise POST a `start_pump` request; on a successful response
mark the pump running in `pumpStates`, otherwise leave the state unchanged
and notify.  `serverOk` models the outcome of the `fetch` (`none` = network
error, `some b` = response with `success = b`); server-side message text is
not modelled. -/
def jsStartPump (pump : List Char) (rpmInput : Option Rat) (timeInput : Option Int)
    (continuous : Bool) (serverOk : Option Bool) (st : FrontendPumpState) :
    FrontendPumpState × List StartRequest × List (List Char × NotifKind) :=
  let rpm := jsOrZero rpmInput
  let time := jsIntOrZero timeInput
  if rpm = some 0 ∨ rpm = none then
    (st, [], [(pump ++ " Pump: RPM cannot be 0".data, NotifKind.error)])
  else
    let r := rpm.getD 0
    let req : StartRequest :=
      { pump := pump, rpm := r, time := time,
        continuous := if continuous then 1 else 0 }
    match serverOk with
    | some true =>
      ({ running := true, rpm := r, time := time, continuous := continuous },
        [req], [(pump ++ " Pump started successfully".data, NotifKind.success)])
    | some false =>
      (st, [req], [("Failed to start ".data ++ pump ++ " Pump".data, NotifKind.error)])
    | none =>
      (st, [req], [("Error starting ".data ++ pump ++ " Pump".data, NotifKind.error)])

/- ===== Helper lemmas ===== -/

theorem emitLine_pumps (m : List Char) (s : Sys) : (emitLine m s).pumps = s.pumps := rfl

theorem emitLine_pins (m : List Char) (s : Sys) : (emitLine m s).pins = s.pins := rfl

theorem emitLine_out (m : List Char) (s : Sys) :
    (emitLine m s).out = s.out ++ [OutEvent.line m] := rfl

theorem stopPump_run_self (i : Fin 4) (s : Sys) :
    ((stopPump i s).pumps i).isRunning = false := by
  unfold stopPump
  by_cases h : (s.pumps i).isRunning = true
  · simp [h, emitEvent, digitalWrite, Function.update_same]
  · simp only [Bool.not_eq_true] at h
    simp [h]

theorem stopPump_pumps_ne (i j : Fin 4) (s : Sys) (h : j ≠ i) :
    (stopPump i s).pumps j = s.pumps j := by
  unfold stopPump
  by_cases hr : (s.pumps i).isRunning = true
  · simp [hr, emitEvent, digitalWrite, Function.update_noteq h]
  · simp only [Bool.not_eq_true] at hr
    simp [hr]

theorem stopPump_pins_enable (i : Fin 4) (s : Sys) (h : (s.pumps i).isRunning = true) :
    (stopPump i s).pins ((s.pumps i).enablePin) = true := by
  unfold stopPump
  simp [h, emitEvent, digitalWrite]

theorem startPump_pumps_self (i : Fin 4) (rpm : Rat) (dur : Int) (cont : Bool)
    (ms us : Nat) (s : Sys) :
    (startPump i rpm dur cont ms us s).pumps i
      = { s.pumps i with
          rpm := |rpm|, duration := dur, continuous := cont, isRunning := true,
          startTime := ms, intervalMicros := stepIntervalMicros |rpm|,
          lastStepTime := us } := by
  unfold startPump stopPump
  by_cases hr : (s.pumps i).isRunning = true
  · simp [hr, emitEvent, digitalWrite, Function.update_same]
  · simp only [Bool.not_eq_true] at hr
    simp [hr, emitEvent, digitalWrite, Function.update_same]

theorem startPump_pumps_ne (i j : Fin 4) (rpm : Rat) (dur : Int) (cont : Bool)
    (ms us : Nat) (s : Sys) (h : j ≠ i) :
    (startPump i rpm dur cont ms us s).pumps j = s.pumps j := by
  unfold startPump stopPump
  by_cases hr : (s.pumps i).isRunning = true
  · simp [hr, emitEvent, digitalWrite, Function.update_noteq h]
  · simp only [Bool.not_eq_true] at hr
    simp [hr, emitEvent, digitalWrite, Function.update_noteq h]

theorem startPump_pins_enable (i : Fin 4) (rpm : Rat) (dur : Int) (cont : Bool)
    (ms us : Nat) (s : Sys) :
    (startPump i rpm dur cont ms us s).pins ((s.pumps i).enablePin) = false := by
  unfold startPump stopPump
  by_cases hr : (s.pumps i).isRunning = true
  · simp [hr, emitEvent, digitalWrite, Function.update_same]
  · simp only [Bool.not_eq_true] at hr
    simp [hr, emitEvent, digitalWrite, Function.update_same]

theorem usub32_eq_sub (a b : Nat) (h1 : b ≤ a) (h2 : a - b < U32) (h3 : b < U32) :
    usub32 a b = a - b := by
  unfold usub32 U32 at *
  omega

theorem toU32_eq_toNat (z : Int) (h1 : 0 ≤ z) (h2 : z < (U32 : Nat)) :
    toU32 z = z.toNat := by
  unfold toU32 U32 at *
  omega

theorem ratOfNat_eq_cast (n : Nat) : ratOfNat n = (n : Rat) := by
  unfold ratOfNat
  rw [Rat.mkRat_one]
  rfl

theorem stepIntervalMicros_div (r : Rat) (h : 0 < r) :
    stepIntervalMicros r = 18750 / r := by
  unfold stepIntervalMicros
  have hr : r ≠ 0 := ne_of_gt h
  field_simp
  ring

/- ===== Claim theorems ===== -/

/-- Claim C5: after processing an EMERGENCY command, every channel is
deactivated and its running flag is false, unconditionally, for any prior
combination of running channels, with no partial-failure case; a subsequent
STATUS reports 0 for every channel. -/
theorem emergency_stops_all_channels (s : Sys) (ms1 us1 ms2 us2 : Nat) (i : Fin 4) :
    ((processCommand "EMERGENCY".data ms1 us1 s).pumps i).isRunning = false
    ∧ (processCommand "STATUS".data ms2 us2 (processCommand "EMERGENCY".data ms1 us1 s)).out
        = (processCommand "EMERGENCY".data ms1 us1 s).out
          ++ [OutEvent.line "\x7b\"X\":0,\"Y\":0,\"Z\":0,\"A\":0\x7d".data] := by
  have hcmd : processCommand "EMERGENCY".data ms1 us1 s = handleEmergencyStop s := rfl
  have hrun : ∀ j : Fin 4, ((handleEmergencyStop s).pumps j).isRunning = false := by
    have h0 : ((handleEmergencyStop s).pumps 0).isRunning = false := by
      unfold handleEmergencyStop
      rw [emitLine_pumps, stopPump_pumps_ne 3 0 _ (by decide),
        stopPump_pumps_ne 2 0 _ (by decide), stopPump_pumps_ne 1 0 _ (by decide)]
      exact stopPump_run_self 0 s
    have h1 : ((handleEmergencyStop s).pumps 1).isRunning = false := by
      unfold handleEmergencyStop
      rw [emitLine_pumps, stopPump_pumps_ne 3 1 _ (by decide),
        stopPump_pumps_ne 2 1 _ (by decide)]
      exact stopPump_run_self 1 _
    have h2 : ((handleEmergencyStop s).pumps 2).isRunning = false := by
      unfold handleEmergencyStop
      rw [emitLine_pumps, stopPump_pumps_ne 3 2 _ (by decide)]
      exact stopPump_run_self 2 _
    have h3 : ((handleEmergencyStop s).pumps 3).isRunning = false := by
      unfold handleEmergencyStop
      rw [emitLine_pumps]
      exact stopPump_run_self 3 _
    intro j
    fin_cases j
    · exact h0
    · exact h1
    · exact h2
    · exact h3
  constructor
  · rw [hcmd]; exact hrun i
  · rw [hcmd]
    have hstat : processCommand "STATUS".data ms2 us2 (handleEmergencyStop s)
        = emitLine (statusString (handleEmergencyStop s)) (handleEmergencyStop s) := rfl
    rw [hstat, emitLine_out]
    have hss : statusString (handleEmergencyStop s)
        = "\x7b\"X\":0,\"Y\":0,\"Z\":0,\"A\":0\x7d".data := by
      unfold statusString runBit
      rw [hrun 0, hrun 1, hrun 2, hrun 3]
      rfl
    rw [hss]

/-- Claim C7: for every valid RPM r with 0 < r ≤ 3000, the computed
`targetStepIntervalMicros` equals 1e6 / ((r/60) × 3200), is strictly
positive, and strictly decreases as r increases. -/
theorem stepInterval_pos_strict_anti (r1 r2 : Rat) :
    0 < r1 → r1 ≤ 3000 → 0 < r2 → r2 ≤ 3000 →
    (stepIntervalMicros r1 = 1000000 / ((r1 / 60) * 3200))
    ∧ 0 < stepIntervalMicros r1
    ∧ (r1 < r2 → stepIntervalMicros r2 < stepIntervalMicros r1) := by
  intro h1 h1b h2 h2b
  have e1 : stepIntervalMicros r1 = 18750 / r1 := stepIntervalMicros_div r1 h1
  have e2 : stepIntervalMicros r2 = 18750 / r2 := stepIntervalMicros_div r2 h2
  refine ⟨?_, ?_, ?_⟩
  · rw [e1]
    have hr : r1 ≠ 0 := ne_of_gt h1
    field_simp
    ring
  · rw [e1]
    positivity
  · intro hlt
    rw [e1, e2]
    exact div_lt_div_of_pos_left (by norm_num) h1 hlt

/-- Claim C7 witness: instantiation at r1 = 50, r2 = 100. -/
theorem stepInterval_pos_strict_anti_witness :
    ((0 : Rat) < 50 ∧ (50 : Rat) ≤ 3000 ∧ (0 : Rat) < 100 ∧ (100 : Rat) ≤ 3000)
    ∧ ((stepIntervalMicros 50 = 1000000 / (((50 : Rat) / 60) * 3200))
        ∧ 0 < stepIntervalMicros 50
        ∧ ((50 : Rat) < 100 → stepIntervalMicros 100 < stepIntervalMicros 50)) :=
  ⟨⟨by norm_num, by norm_num, by norm_num, by norm_num⟩,
    stepInterval_pos_strict_anti 50 100 (by norm_num) (by norm_num) (by norm_num) (by norm_num)⟩

/-- Claim C2 (counterexample): the running flag and the GPIO enable state
are not always consistent.  Start pump X, start pump Y, then stop pump X:
pump Y still has `isRunning = true`, but the shared enable line (pin 8,
active-low: LOW = enabled) has been driven HIGH by stopping X, so the
still-running channel Y is no longer enabled. -/
theorem running_enable_consistency_counterexample :
    ((processCommand "STOP,X".data 0 0
        (processCommand "START,Y,60,10,0".data 0 0
          (processCommand "START,X,50,10,0".data 0 0 setupState))).pumps 1).isRunning = true
    ∧ ((processCommand "STOP,X".data 0 0
        (processCommand "START,Y,60,10,0".data 0 0
          (processCommand "START,X,50,10,0".data 0 0 setupState))).pumps 1).enablePin = 8
    ∧ (processCommand "STOP,X".data 0 0
        (processCommand "START,Y,60,10,0".data 0 0
          (processCommand "START,X,50,10,0".data 0 0 setupState))).pins 8 = true := by
  with_unfolding_all decide

/-- Claim C2 (amended): activation and deactivation keep the acted-upon
channel's running flag consistent with the enable level they write
(activation asserts the active-low enable, deactivation of a running channel
deasserts it), and never touch another channel's stored state; but because
all four channels share enable pin 8, deactivating one channel deasserts the
enable line for every channel, so the effective enable state of a
still-running channel does change. -/
theorem running_enable_per_action (s : Sys) (i j : Fin 4) (rpm : Rat) (dur : Int)
    (cont : Bool) (ms us : Nat) :
    (((stopPump i s).pumps i).isRunning = false)
    ∧ ((s.pumps i).isRunning = true →
        (stopPump i s).pins ((s.pumps i).enablePin) = true)
    ∧ (j ≠ i → (stopPump i s).pumps j = s.pumps j)
    ∧ (((startPump i rpm dur cont ms us s).pumps i).isRunning = true)
    ∧ ((startPump i rpm dur cont ms us s).pins ((s.pumps i).enablePin) = false)
    ∧ (j ≠ i → (startPump i rpm dur cont ms us s).pumps j = s.pumps j) := by
  refine ⟨stopPump_run_self i s, fun h => stopPump_pins_enable i s h,
    fun h => stopPump_pumps_ne i j s h, ?_, startPump_pins_enable i rpm dur cont ms us s,
    fun h => startPump_pumps_ne i j rpm dur cont ms us s h⟩
  rw [startPump_pumps_self]

/-- Claim C2 witness: with pump X running, stopping X drives the shared
enable pin 8 HIGH while leaving pump Y's stored record untouched. -/
theorem running_enable_per_action_witness :
    ((demoAfterStartX.pumps 0).isRunning = true ∧ (1 : Fin 4) ≠ (0 : Fin 4))
    ∧ ((stopPump 0 demoAfterStartX).pins ((demoAfterStartX.pumps 0).enablePin) = true
        ∧ (stopPump 0 demoAfterStartX).pumps 1 = demoAfterStartX.pumps 1) :=
  ⟨⟨by with_unfolding_all decide, by decide⟩,
    ⟨(running_enable_per_action demoAfterStartX 0 1 0 0 false 0 0).2.1
        (by with_unfolding_all decide),
      (running_enable_per_action demoAfterStartX 0 1 0 0 false 0 0).2.2.1 (by decide)⟩⟩

/-- Claim C8: a STOP command deactivates a channel only when a comma is
present and is not the last character, and the character after the comma
names a known channel; a missing comma or a comma with nothing after it
yields `ERROR: Invalid STOP command`, an unknown channel id yields
`ERROR: Invalid pump`, and in both error cases nothing but the error line
is emitted — no channel state changes. -/
theorem stop_command_validation (s : Sys) (cmd : List Char) :
    (indexOfComma cmd = none → handleStopCommand cmd s = emitLine msgStopInvalid s)
    ∧ (∀ k, indexOfComma cmd = some k → k = cmd.length - 1 →
        handleStopCommand cmd s = emitLine msgStopInvalid s)
    ∧ (∀ k, indexOfComma cmd = some k → k ≠ cmd.length - 1 →
        findPumpIndex (charAt cmd (k + 1)) s = none →
        handleStopCommand cmd s = emitLine msgInvalidPump s)
    ∧ (∀ k i, indexOfComma cmd = some k → k ≠ cmd.length - 1 →
        findPumpIndex (charAt cmd (k + 1)) s = some i →
        handleStopCommand cmd s = emitLine msgOk (stopPump i s)) := by
  refine ⟨?_, ?_, ?_, ?_⟩
  · intro h
    unfold handleStopCommand
    rw [h]
  · intro k hk hlast
    unfold handleStopCommand
    rw [hk]
    simp [hlast]
  · intro k hk hlast hfind
    unfold handleStopCommand
    rw [hk]
    simp only [if_neg hlast]
    rw [hfind]
  · intro k i hk hlast hfind
    unfold handleStopCommand
    rw [hk]
    simp only [if_neg hlast]
    rw [hfind]

/-- Claim C8 witness: `STOP,Q` (comma present, non-empty trailing id `Q`
which is not a configured channel) is rejected with `ERROR: Invalid pump`
and no state change. -/
theorem stop_command_validation_witness :
    (indexOfComma "STOP,Q".data = some 4
      ∧ (4 : Nat) ≠ "STOP,Q".data.length - 1
      ∧ findPumpIndex (charAt "STOP,Q".data 5) setupState = none)
    ∧ handleStopCommand "STOP,Q".data setupState = emitLine msgInvalidPump setupState :=
  ⟨⟨by decide, by decide, by decide⟩,
    (stop_command_validation setupState "STOP,Q".data).2.2.1 4 (by decide) (by decide)
      (by decide)⟩

theorem handleStart_dispatch_of_ge (cmd : List Char) (ms us : Nat) (s : Sys)
    (h5 : 5 ≤ (splitFields cmd).length) :
    handleStartCommand cmd ms us s = startDispatch ((splitFields cmd).take 5) ms us s := by
  have hmin : min (splitFields cmd).length 5 = 5 := Nat.min_eq_right h5
  simp only [handleStartCommand, hmin]
  simp

theorem startDispatch_eq (parts : List (List Char)) (ms us : Nat) (s : Sys) (i : Fin 4)
    (hfind : findPumpIndex (charAt (parts.getD 1 []) 0) s = some i) :
    startDispatch parts ms us s =
      (if atof (parts.getD 2 []) = 0 ∨ 3000 < |atof (parts.getD 2 [])| then
        emitLine msgRpmRange s
      else if atol (parts.getD 4 []) = 0 ∧ atol (parts.getD 3 []) ≤ 0 then
        emitLine msgDuration s
      else
        emitLine msgOk
          (startPump i (atof (parts.getD 2 [])) (atol (parts.getD 3 []))
            (atol (parts.getD 4 []) == 1) ms us s)) := by
  simp only [startDispatch, hfind]

/-- Claim C3: a START command (with a valid 5-field split and a known pump
id) is accepted only when its rpm field r satisfies 0 < |r| ≤ 3000; for
r = 0 or |r| > 3000 it is rejected with the response line
`ERROR: RPM must be between -3000 and 3000` and no channel state changes
(the result is the prior state with only that error line appended). -/
theorem start_rpm_validation (s : Sys) (cmd : List Char) (parts : List (List Char))
    (ms us : Nat) (i : Fin 4) (r : Rat) :
    5 ≤ (splitFields cmd).length →
    (splitFields cmd).take 5 = parts →
    findPumpIndex (charAt (parts.getD 1 []) 0) s = some i →
    atof (parts.getD 2 []) = r →
    ((r = 0 ∨ 3000 < |r|) → handleStartCommand cmd ms us s = emitLine msgRpmRange s)
    ∧ (r ≠ 0 → |r| ≤ 3000 →
        handleStartCommand cmd ms us s = emitLine msgDuration s
        ∨ handleStartCommand cmd ms us s
            = emitLine msgOk
                (startPump i r (atol (parts.getD 3 []))
                  (atol (parts.getD 4 []) == 1) ms us s)) := by
  intro h5 hparts hfind hr
  subst hparts
  subst hr
  rw [handleStart_dispatch_of_ge cmd ms us s h5,
    startDispatch_eq ((splitFields cmd).take 5) ms us s i hfind]
  constructor
  · intro hbad
    rw [if_pos hbad]
  · intro h1 h2
    rw [if_neg (by push_neg; exact ⟨h1, h2⟩)]
    by_cases hd : atol (((splitFields cmd).take 5).getD 4 []) = 0
        ∧ atol (((splitFields cmd).take 5).getD 3 []) ≤ 0
    · left
      rw [if_pos hd]
    · right
      rw [if_neg hd]

/-- Claim C3 witness: `START,X,0,10,0` and `START,X,5000,10,0` are both
rejected with the RPM range error and no state change. -/
theorem start_rpm_validation_witness :
    (5 ≤ (splitFields "START,X,0,10,0".data).length
      ∧ atof "0".data = 0 ∧ 3000 < |atof "5000".data|
      ∧ findPumpIndex (charAt "X".data 0) setupState = some 0)
    ∧ handleStartCommand "START,X,0,10,0".data 0 0 setupState
        = emitLine msgRpmRange setupState
    ∧ handleStartCommand "START,X,5000,10,0".data 0 0 setupState
        = emitLine msgRpmRange setupState := by
  have h1 : atof "5000".data = 5000 := by
    have hc : "5000".data = ['5', '0', '0', '0'] := rfl
    rw [hc]
    simp [atof, readDigits, isSpaceB, ratOfNat_eq_cast]
  have h2 : (3000 : Rat) < |atof "5000".data| := by
    rw [h1]
    norm_num
  refine ⟨⟨by decide, by with_unfolding_all decide, h2, by decide⟩, ?_, ?_⟩
  · exact (start_rpm_validation setupState "START,X,0,10,0".data
      ["START".data, "X".data, "0".data, "10".data, "0".data] 0 0 0 0
      (by decide) (by decide) (by decide) (by with_unfolding_all decide)).1 (Or.inl rfl)
  · exact (start_rpm_validation setupState "START,X,5000,10,0".data
      ["START".data, "X".data, "5000".data, "10".data, "0".data] 0 0 0
      (atof "5000".data)
      (by decide) (by decide) (by decide) rfl).1 (Or.inr h2)

/-- Claim C4 (counterexample): a START line with six comma-separated fields
is NOT rejected: `START,X,50,10,0,9` splits into six fields, yet the
firmware accepts it (the sixth field is dropped), starts pump X and answers
OK — contradicting the claim that any field count other than five yields
`ERROR: Invalid START command format` with no state change. -/
theorem start_field_count_counterexample :
    (splitFields (trimChars "START,X,50,10,0,9".data)).length = 6
    ∧ ((processCommand "START,X,50,10,0,9".data 0 0 setupState).pumps 0).isRunning = true
    ∧ (processCommand "START,X,50,10,0,9".data 0 0 setupState).out
        = setupState.out ++ [OutEvent.started 'X' 50 true, OutEvent.line msgOk] := by
  with_unfolding_all decide

/-- Claim C4 (amended): a START command line is rejected with
`ERROR: Invalid START command format` (and no state change) exactly when it
has fewer than five comma-separated fields; with five or more fields it is
dispatched to channel activation using the first five fields, any further
fields being ignored. -/
theorem start_field_count (s : Sys) (cmd : List Char) (ms us : Nat) :
    ((splitFields cmd).length < 5 →
      handleStartCommand cmd ms us s = emitLine msgStartFormat s)
    ∧ (5 ≤ (splitFields cmd).length →
      handleStartCommand cmd ms us s = startDispatch ((splitFields cmd).take 5) ms us s) := by
  constructor
  · intro h
    have hmin : min (splitFields cmd).length 5 ≠ 5 := by omega
    simp only [handleStartCommand, if_pos hmin]
  · intro h
    exact handleStart_dispatch_of_ge cmd ms us s h

/-- Claim C4 witness: `START,X` has two fields and is rejected with the
format error, leaving the state unchanged. -/
theorem start_field_count_witness :
    ((splitFields "START,X".data).length < 5)
    ∧ handleStartCommand "START,X".data 0 0 setupState
        = emitLine msgStartFormat setupState :=
  ⟨by decide, (start_field_count setupState "START,X".data 0 0).1 (by decide)⟩

/-- Claim C9 (counterexample): the invariant "continuous = false implies
durationSeconds > 0" fails on a reachable state: `START,X,50,0,2` has a
continuous field of 2, which skips the duration check (`continuous == 0 &&
duration <= 0`) but is stored as `continuous == 1`, i.e. false — leaving
pump X running with `continuous = false` and `duration = 0`. -/
theorem duration_invariant_counterexample :
    ((processCommand "START,X,50,0,2".data 0 0 setupState).pumps 0).isRunning = true
    ∧ ((processCommand "START,X,50,0,2".data 0 0 setupState).pumps 0).continuous = false
    ∧ ¬(0 < ((processCommand "START,X,50,0,2".data 0 0 setupState).pumps 0).duration) := by
  with_unfolding_all decide

/-- Claim C9 (amended): when a START command's continuous field parses to 0
(so the source's duration check applies), a non-positive duration is
rejected with `ERROR: Duration must be positive` and no state change, and
an accepted command stores `continuous = false` together with a strictly
positive `durationSeconds`.  The unrestricted invariant fails: channels are
initialised with `continuous = false` and `duration = 0`, and a START whose
continuous field parses to a value other than 0 or 1 bypasses the duration
check while still storing `continuous = false`. -/
theorem start_duration_validation (s : Sys) (cmd : List Char) (parts : List (List Char))
    (ms us : Nat) (i : Fin 4) :
    5 ≤ (splitFields cmd).length →
    (splitFields cmd).take 5 = parts →
    findPumpIndex (charAt (parts.getD 1 []) 0) s = some i →
    atol (parts.getD 4 []) = 0 →
    ¬(atof (parts.getD 2 []) = 0 ∨ 3000 < |atof (parts.getD 2 [])|) →
    ((atol (parts.getD 3 []) ≤ 0 →
        handleStartCommand cmd ms us s = emitLine msgDuration s)
      ∧ (0 < atol (parts.getD 3 []) →
          ((handleStartCommand cmd ms us s).pumps i).continuous = false
          ∧ 0 < ((handleStartCommand cmd ms us s).pumps i).duration)) := by
  intro h5 hparts hfind hc0 hok
  subst hparts
  rw [handleStart_dispatch_of_ge cmd ms us s h5,
    startDispatch_eq ((splitFields cmd).take 5) ms us s i hfind]
  rw [if_neg hok]
  constructor
  · intro hd
    rw [if_pos ⟨hc0, hd⟩]
  · intro hd
    rw [if_neg (by rintro ⟨-, hle⟩; omega)]
    have hp := startPump_pumps_self i (atof (((splitFields cmd).take 5).getD 2 []))
      (atol (((splitFields cmd).take 5).getD 3 []))
      (atol (((splitFields cmd).take 5).getD 4 []) == 1) ms us s
    constructor
    · rw [emitLine_pumps, hp, hc0]
      rfl
    · rw [emitLine_pumps, hp]
      exact hd

/-- Claim C9 witness: `START,X,50,10,0` is accepted and stores
`continuous = false` with `duration = 10 > 0`. -/
theorem start_duration_validation_witness :
    (atol "0".data = 0 ∧ 0 < atol "10".data)
    ∧ ((handleStartCommand "START,X,50,10,0".data 0 0 setupState).pumps 0).continuous = false
    ∧ 0 < ((handleStartCommand "START,X,50,10,0".data 0 0 setupState).pumps 0).duration :=
  ⟨⟨by decide, by decide⟩,
    (start_duration_validation setupState "START,X,50,10,0".data
        ["START".data, "X".data, "50".data, "10".data, "0".data] 0 0 0
        (by decide) (by decide) (by decide) (by decide)
        (by with_unfolding_all decide)).2 (by decide)⟩

/-- Claim C1: each scheduler pass processes the four channels independently
in index order (`updatePumps` is the fold of the per-channel body); a
channel that is not running is skipped unchanged; a running, non-continuous
channel whose elapsed milliseconds since `startTime` have reached
`duration × 1000` is deactivated (auto-stop); otherwise, when the elapsed
microseconds since `lastStepTime` have reached `intervalMicros`, exactly one
step pulse is emitted on the channel's step pin and `lastStepTime` is set to
the current `micros()` reading.  The clock hypotheses rule out the 32-bit
wrap-around of `millis()`/`micros()`, under which the unsigned subtractions
of the source coincide with true elapsed time. -/
theorem scheduler_pass_per_channel (s : Sys) (nowMs nowUs : Nat) (i : Fin 4) :
    (updatePumps nowMs nowUs s
        = List.foldl (updateOnePump nowMs nowUs) s ([0, 1, 2, 3] : List (Fin 4)))
    ∧ ((s.pumps i).isRunning = false → updateOnePump nowMs nowUs s i = s)
    ∧ ((s.pumps i).isRunning = true → (s.pumps i).continuous = false →
        (s.pumps i).startTime ≤ nowMs → nowMs - (s.pumps i).startTime < U32 →
        (s.pumps i).startTime < U32 →
        0 ≤ (s.pumps i).duration * 1000 →
        (s.pumps i).duration * 1000 < ((U32 : Nat) : Int) →
        ((s.pumps i).duration * 1000 ≤ ((nowMs - (s.pumps i).startTime : Nat) : Int)) →
        updateOnePump nowMs nowUs s i = stopPump i s
          ∧ ((stopPump i s).pumps i).isRunning = false)
    ∧ ((s.pumps i).isRunning = true →
        ((s.pumps i).continuous = true ∨
          ((s.pumps i).continuous = false
            ∧ (((nowMs - (s.pumps i).startTime : Nat) : Int) < (s.pumps i).duration * 1000)
            ∧ (s.pumps i).startTime ≤ nowMs ∧ nowMs - (s.pumps i).startTime < U32
            ∧ (s.pumps i).startTime < U32 ∧ 0 ≤ (s.pumps i).duration * 1000
            ∧ (s.pumps i).duration * 1000 < ((U32 : Nat) : Int))) →
        (s.pumps i).lastStepTime ≤ nowUs → nowUs - (s.pumps i).lastStepTime < U32 →
        (s.pumps i).lastStepTime < U32 →
        ((s.pumps i).intervalMicros ≤ ((nowUs - (s.pumps i).lastStepTime : Nat) : Rat)) →
        ((updateOnePump nowMs nowUs s i).pumps
            = Function.update s.pumps i { s.pumps i with lastStepTime := nowUs }
          ∧ (updateOnePump nowMs nowUs s i).gpioTrace
            = s.gpioTrace ++ [((s.pumps i).stepPin, true), ((s.pumps i).stepPin, false)]
          ∧ (updateOnePump nowMs nowUs s i).out = s.out)) := by
  refine ⟨rfl, ?_, ?_, ?_⟩
  · intro h
    simp only [updateOnePump]
    rw [if_pos h]
  · intro hrun hcont h1 h2 h3 h4 h5 h6
    have hmod : toU32 ((s.pumps i).duration * 1000) ≤ usub32 nowMs (s.pumps i).startTime := by
      rw [usub32_eq_sub _ _ h1 h2 h3, toU32_eq_toNat _ h4 h5]
      omega
    constructor
    · simp only [updateOnePump]
      rw [if_neg (by simp [hrun]), if_pos ⟨hcont, hmod⟩]
    · exact stopPump_run_self i s
  · intro hrun hnotexp hu1 hu2 hu3 hint
    have hcondmod : ¬((s.pumps i).continuous = false
        ∧ toU32 ((s.pumps i).duration * 1000) ≤ usub32 nowMs (s.pumps i).startTime) := by
      rcases hnotexp with hc | ⟨hc, hlt, h1, h2, h3, h4, h5⟩
      · rintro ⟨hfc, -⟩
        rw [hc] at hfc
        cases hfc
      · rintro ⟨-, hge⟩
        rw [usub32_eq_sub _ _ h1 h2 h3, toU32_eq_toNat _ h4 h5] at hge
        omega
    have hint2 : (s.pumps i).intervalMicros
        ≤ ratOfNat (usub32 nowUs (s.pumps i).lastStepTime) := by
      rw [usub32_eq_sub _ _ hu1 hu2 hu3, ratOfNat_eq_cast]
      exact hint
    simp only [updateOnePump]
    rw [if_neg (by simp [hrun]), if_neg hcondmod, if_pos hint2]
    refine ⟨by simp [digitalWrite], by simp [digitalWrite], by simp [digitalWrite]⟩

/-- Claim C1 witness: at `millis() = 150`, `micros() = 240`, the running
pump X (interval 25 µs, last pulse at 200 µs, 40 µs elapsed, duration not
expired) emits exactly one step pulse and records the new pulse time. -/
theorem scheduler_pass_per_channel_witness :
    (((processCommand "START,X,750,10,0".data 100 200 setupState).pumps 0).isRunning = true
      ∧ ((processCommand "START,X,750,10,0".data 100 200 setupState).pumps 0).intervalMicros
          ≤ ((240 - ((processCommand "START,X,750,10,0".data 100 200 setupState).pumps 0).lastStepTime
              : Nat) : Rat))
    ∧ ((updateOnePump 150 240 (processCommand "START,X,750,10,0".data 100 200 setupState) 0).pumps
        = Function.update (processCommand "START,X,750,10,0".data 100 200 setupState).pumps 0
            { (processCommand "START,X,750,10,0".data 100 200 setupState).pumps 0 with
              lastStepTime := 240 }
      ∧ (updateOnePump 150 240 (processCommand "START,X,750,10,0".data 100 200 setupState) 0).gpioTrace
        = (processCommand "START,X,750,10,0".data 100 200 setupState).gpioTrace
          ++ [(((processCommand "START,X,750,10,0".data 100 200 setupState).pumps 0).stepPin, true),
              (((processCommand "START,X,750,10,0".data 100 200 setupState).pumps 0).stepPin, false)]
      ∧ (updateOnePump 150 240 (processCommand "START,X,750,10,0".data 100 200 setupState) 0).out
        = (processCommand "START,X,750,10,0".data 100 200 setupState).out) :=
  ⟨⟨by with_unfolding_all decide, by with_unfolding_all decide⟩,
    (scheduler_pass_per_channel (processCommand "START,X,750,10,0".data 100 200 setupState)
        150 240 0).2.2.2
      (by with_unfolding_all decide)
      (Or.inr ⟨by with_unfolding_all decide, by with_unfolding_all decide,
        by with_unfolding_all decide, by with_unfolding_all decide,
        by with_unfolding_all decide, by with_unfolding_all decide,
        by with_unfolding_all decide⟩)
      (by with_unfolding_all decide) (by with_unfolding_all decide)
      (by with_unfolding_all decide) (by with_unfolding_all decide)⟩

/-- Claim C6: `startPump` first deactivates the channel if it is already
running (the GPIO trace shows the enable deassert before the re-assert, so
no two enabled configurations overlap), writes the direction output exactly
once from the sign of rpm, recomputes the interval from `abs rpm`, fully
overwrites the stored configuration, marks the channel running, records the
start timestamps, and leaves every other channel untouched. -/
theorem startPump_overwrites (s : Sys) (i : Fin 4) (rpm : Rat) (dur : Int)
    (cont : Bool) (ms us : Nat)
    (h : (s.pumps i).dirPin ≠ (s.pumps i).enablePin) :
    ((startPump i rpm dur cont ms us s).pumps i
        = { s.pumps i with
            rpm := |rpm|, duration := dur, continuous := cont, isRunning := true,
            startTime := ms, intervalMicros := stepIntervalMicros |rpm|,
            lastStepTime := us })
    ∧ (startPump i rpm dur cont ms us s).pins ((s.pumps i).dirPin)
        = (if 0 < rpm then true else false)
    ∧ (startPump i rpm dur cont ms us s).pins ((s.pumps i).enablePin) = false
    ∧ (∀ j, j ≠ i → (startPump i rpm dur cont ms us s).pumps j = s.pumps j)
    ∧ (startPump i rpm dur cont ms us s).gpioTrace
        = s.gpioTrace
          ++ (if (s.pumps i).isRunning = true
              then [((s.pumps i).enablePin, true)] else [])
          ++ [((s.pumps i).dirPin, if 0 < rpm then true else false),
              ((s.pumps i).enablePin, false)] := by
  refine ⟨startPump_pumps_self i rpm dur cont ms us s, ?_,
    startPump_pins_enable i rpm dur cont ms us s,
    fun j hj => startPump_pumps_ne i j rpm dur cont ms us s hj, ?_⟩
  · unfold startPump stopPump
    by_cases hr : (s.pumps i).isRunning = true
    · simp [hr, emitEvent, digitalWrite, Function.update_same, h]
    · simp only [Bool.not_eq_true] at hr
      simp [hr, emitEvent, digitalWrite, h]
  · unfold startPump stopPump
    by_cases hr : (s.pumps i).isRunning = true
    · simp [hr, emitEvent, digitalWrite, Function.update_same, List.append_assoc]
    · simp only [Bool.not_eq_true] at hr
      simp [hr, emitEvent, digitalWrite, List.append_assoc]

/-- Claim C6 witness: with pump X already running forward at 50 RPM, the
second command `START,X,-50,5,0` (modelled by its `startPump` call) yields
exactly one direction write (the reversal to LOW), one enable deassert
followed by one re-assert, and a fully overwritten configuration. -/
theorem startPump_overwrites_witness :
    ((demoAfterStartX.pumps 0).dirPin ≠ (demoAfterStartX.pumps 0).enablePin)
    ∧ ((startPump 0 (-50) 5 false 300 400 demoAfterStartX).pumps 0
        = { demoAfterStartX.pumps 0 with
            rpm := |(-50 : Rat)|, duration := 5, continuous := false, isRunning := true,
            startTime := 300, intervalMicros := stepIntervalMicros |(-50 : Rat)|,
            lastStepTime := 400 }
      ∧ (startPump 0 (-50) 5 false 300 400 demoAfterStartX).pins
            ((demoAfterStartX.pumps 0).dirPin) = (if (0 : Rat) < -50 then true else false)
      ∧ (startPump 0 (-50) 5 false 300 400 demoAfterStartX).pins
            ((demoAfterStartX.pumps 0).enablePin) = false
      ∧ (∀ j, j ≠ (0 : Fin 4) →
            (startPump 0 (-50) 5 false 300 400 demoAfterStartX).pumps j
              = demoAfterStartX.pumps j)
      ∧ (startPump 0 (-50) 5 false 300 400 demoAfterStartX).gpioTrace
          = demoAfterStartX.gpioTrace
            ++ (if (demoAfterStartX.pumps 0).isRunning = true
                then [((demoAfterStartX.pumps 0).enablePin, true)] else [])
            ++ [((demoAfterStartX.pumps 0).dirPin, if (0 : Rat) < -50 then true else false),
                ((demoAfterStartX.pumps 0).enablePin, false)]) :=
  ⟨by with_unfolding_all decide,
    startPump_overwrites demoAfterStartX 0 (-50) 5 false 300 400
      (by with_unfolding_all decide)⟩

/-- Claim C10: the front-end `startPump` sends no `start_pump` HTTP request
and leaves the pump's `pumpStates` entry unchanged whenever the RPM input
parses to 0 or NaN; it only shows an error notification and returns. -/
theorem frontend_start_rpm_guard (pump : List Char) (rpmInput : Option Rat)
    (timeInput : Option Int) (cont : Bool) (serverOk : Option Bool)
    (st : FrontendPumpState) :
    rpmInput = none ∨ rpmInput = some 0 →
    jsStartPump pump rpmInput timeInput cont serverOk st
      = (st, [], [(pump ++ " Pump: RPM cannot be 0".data, NotifKind.error)]) := by
  intro h
  rcases h with h | h <;> subst h <;> simp [jsStartPump, jsOrZero, jsIntOrZero]

/-- Claim C10 witness: with an RPM input that parses to NaN, the front-end
start leaves the state unchanged, sends nothing, and shows one error
notification. -/
theorem frontend_start_rpm_guard_witness :
    ((none : Option Rat) = none ∨ (none : Option Rat) = some 0)
    ∧ jsStartPump "X".data none (some 5) false (some true)
        { running := false, rpm := 0, time := 0, continuous := false }
      = ({ running := false, rpm := 0, time := 0, continuous := false }, [],
          [("X".data ++ " Pump: RPM cannot be 0".data, NotifKind.error)]) :=
  ⟨Or.inl rfl,
    frontend_start_rpm_guard "X".data none (some 5) false (some true)
      { running := false, rpm := 0, time := 0, continuous := false } (Or.inl rfl)⟩
